import Mathlib

/-!
Verification of the change-feed replication engine of the
couchdb-db-transform repository.

The definitions below are a shallow embedding of the JavaScript source:
  * `Doc`, `Change`, `BatchEntry`, `BulkResult` - the data model of the
    change feed and the target bulk-write API;
  * `Filter.applyClientFilter` - lib/filter.js, `Filter.prototype.applyClientFilter`;
  * `Transformer.transform` - transform.js, `Transformer.prototype.transform`;
  * `workerStep` / `runWorker` - the `async.queue` bulk-write worker of
    replicate.js (concurrency 1, hence a sequential fold over batches);
  * `update_start_sequence` - the feed start position logic of `Replicator.prototype.init`;
  * `onChange` / `flushBuffer` / `runFeed` - the `feed.on` change handler
    and the buffer part of the idle `flush` routine;
  * `flushStep` / `idleFires` - the idle-flush timer backoff state machine;
  * `initCallbackAction` - the `r.init` callback of app.js (fatal errors
    terminate the process with exit code 1).

Sequence tokens are opaque, totally ordered values issued by the source
store; they are modelled as `Nat`.  JavaScript values that may be `null`
or absent are modelled as `Option`.  A JavaScript function that may throw
is modelled as returning `Except String`.  Timestamps are irrelevant to
the verified properties and are omitted from the worker state.
-/

namespace CouchTransform

/-- A CouchDB document.  `_rev` is optional (it is deleted by the change
handler before a document is queued); `_deleted` is the CouchDB deletion
marker carried in the body of a deleted document delivered by a change
feed with `include_docs`; `payload` stands for all remaining fields. -/
structure Doc where
  _id : String
  _rev : Option String
  _deleted : Bool
  payload : List (String × String)
deriving DecidableEq, Repr

/-- A change notification emitted by the source change feed: a sequence
token, the feed-level `deleted` flag and the optional document body. -/
structure Change where
  seq : Nat
  deleted : Bool
  doc : Option Doc
deriving DecidableEq, Repr

/-- One element of the in-memory `changes` buffer and of a batch handed
to the bulk-write worker: `{seq: change.seq, doc: transformedDoc}`. -/
structure BatchEntry where
  seq : Nat
  doc : Option Doc
deriving DecidableEq, Repr

/-- One per-document result returned by `targetDb.bulk`.  A field is
`some` when the JavaScript value is present and truthy; the worker counts
a result as a success exactly when both `id` and `rev` are truthy. -/
structure BulkResult where
  id : Option String
  rev : Option String
deriving DecidableEq, Repr

/-- Models `delete change.doc._rev` - the revision marker is stripped before a
document is queued; all other fields are untouched. -/
def stripRev (d : Doc) : Doc :=
  { d with _rev := none }

/-- The filter stage of lib/filter.js.  `serverFilterName` is the
optional name of the server-side filter (evaluated by CouchDB, not by
this pipeline); `clientFilterDefinition` is the optional client-side
filter function, which receives the change object and may throw. -/
structure Filter where
  serverFilterName : Option String
  clientFilterDefinition : Option (Change → Except String Bool)

/-- Source `Filter.prototype.hasClientFilter`. -/
def Filter.hasClientFilter (f : Filter) : Bool :=
  f.clientFilterDefinition.isSome

/-- Source `Filter.prototype.applyClientFilter`: reject a null change or a
change without a `doc`; admit everything when no client filter is
configured; otherwise the filter function decides, and a thrown error is
logged and treated as rejection. -/
def Filter.applyClientFilter (f : Filter) (change : Option Change) : Bool :=
  match change with
  | none => false
  | some c =>
    match c.doc with
    | none => false
    | some _ =>
      match f.clientFilterDefinition with
      | none => true
      | some g =>
        match g c with
        | .ok b => b
        | .error _ => false

/-- The transform stage of transform.js: an optional name (the file the
routine was loaded from) and the optional routine, which may throw. -/
structure Transformer where
  name : Option String
  routine : Option (Doc → Except String Doc)

/-- Source `Transformer.prototype.hasTransformationRoutine`. -/
def Transformer.hasTransformationRoutine (t : Transformer) : Bool :=
  t.routine.isSome

/-- Source `Transformer.prototype.transform`: a null document or an absent
routine leaves the document untouched; a configured routine is applied,
and an error it raises is passed to the callback as the error argument. -/
def Transformer.transform (t : Transformer) (doc : Option Doc) : Except String (Option Doc) :=
  match doc with
  | none => .ok none
  | some d =>
    match t.routine with
    | none => .ok (some d)
    | some r =>
      match r d with
      | .ok d2 => .ok (some d2)
      | .error err =>
        .error ("Custom transformation function defined in " ++ (t.name.getD "null") ++
                " caused a fatal error: " ++ err)

/-- Result of `getTransformer` when environment variable TRANSFORM_FUNCTION is not
set: `new Transformer()`, i.e. no name and no routine. -/
def getUnconfiguredTransformer : Transformer :=
  { name := none, routine := none }

/-- The recovery record loaded by `CloudantRepository.prototype.loadRecoveryInfo`. -/
structure RecoveryInfo where
  last_update_seq : Nat
  last_change_applied : String
deriving DecidableEq, Repr

/-- The feed start position computed in `Replicator.prototype.init`:
`stats.target.last_applied_update_seq` starts at 0 and is overwritten by
the recovery record only when `(! this.restart) && (recoveryInfo)`. -/
def update_start_sequence (restart : Bool) (recoveryInfo : Option RecoveryInfo) : Nat :=
  match recoveryInfo with
  | some ri => if restart then 0 else ri.last_update_seq
  | none => 0

/-- The mutable state owned by the bulk-write worker:
`stats.target.copied`, `stats.target.failed`,
`stats.target.last_applied_update_seq`, together with the list of
checkpoint values handed to `saveRecoveryInfo`, in call order (the
repository upserts the single recovery record with each value).  The
initial state mirrors `stats.target` after `init`: both counters 0 and
`last_applied_update_seq = 0`. -/
structure WorkerState where
  copied : Nat
  failed : Nat
  last_applied_update_seq : Option Nat
  persisted : List (Option Nat)
deriving DecidableEq, Repr

/-- Test `result.id && result.rev`: a per-document bulk result counts as a
success exactly when both fields are present (truthy). -/
def isSuccess (r : BulkResult) : Bool :=
  r.id.isSome && r.rev.isSome

/-- The `data.forEach` scan of the worker over the per-document results
paired with their sequence tokens, threading `lastSuccessSeqInBatch`
(initially null) left to right.  Returns
(number of successes, number of failures, lastSuccessSeqInBatch). -/
def bulkScan : List (Nat × BulkResult) → Option Nat → Nat × Nat × Option Nat
  | [], last => (0, 0, last)
  | p :: rest, last =>
    if isSuccess p.2 then
      let r := bulkScan rest (some p.1)
      (r.1 + 1, r.2.1, r.2.2)
    else
      let r := bulkScan rest last
      (r.1, r.2.1 + 1, r.2.2)

/-- One execution of the `async.queue` worker body on a batch, given the
outcome of the `targetDb.bulk` call (`.error` = transport error,
`.ok data` = the parallel per-document result list).  Returns the new
state and the value passed to the worker callback (`some` = error).

Mirrors replicate.js: a transport error adds the batch size to `failed`
and reports an error without touching the checkpoint; otherwise the
results are scanned, the counters are advanced, and if any document
failed the worker reports an error *before* the lines that update
`last_applied_update_seq` and call `saveRecoveryInfo`, so the checkpoint
is only computed and persisted for an entirely successful batch. -/
def workerStep (st : WorkerState) (batch : List BatchEntry)
    (outcome : Except String (List BulkResult)) : WorkerState × Option String :=
  match outcome with
  | .error e =>
    ({ st with failed := st.failed + batch.length },
     some ("Error saving documents in target database: " ++ e))
  | .ok data =>
    let seqs := batch.map BatchEntry.seq
    let scan := bulkScan (seqs.zip data) none
    let st1 := { st with copied := st.copied + scan.1, failed := st.failed + scan.2.1 }
    if scan.2.1 > 0 then
      (st1, some "Error saving documents in target database: per-document failures")
    else
      ({ st1 with last_applied_update_seq := scan.2.2,
                  persisted := st1.persisted ++ [scan.2.2] }, none)

/-- A queued job: the batch together with the outcome of its bulk write. -/
abbrev Job := List BatchEntry × Except String (List BulkResult)

/-- The single worker (concurrency = 1) draining the queue: a sequential
fold of `workerStep` over the jobs in arrival order. -/
def runWorker (st : WorkerState) : List Job → WorkerState
  | [] => st
  | j :: rest => runWorker (workerStep st j.1 j.2).1 rest

/-- The sequence tokens of a job's batch, in batch order. -/
def jobSeqs (j : Job) : List Nat :=
  j.1.map BatchEntry.seq

/-- The checkpoint sequence values actually handed to `saveRecoveryInfo`,
with null values dropped. -/
def ckpts (st : WorkerState) : List Nat :=
  st.persisted.filterMap id

/-- State of `stats.target` right after a successful `init`. -/
def initWorker : WorkerState :=
  { copied := 0, failed := 0, last_applied_update_seq := some 0, persisted := [] }

/-- Constant `changes_per_batch` in replicate.js. -/
def changes_per_batch : Nat := 500

/-- The effect of one `feed.on` change callback run: the new `changes`
buffer, the batch handed to `q.push` (if any), the error passed to
`initCallback` (if the transform routine raised one), and the increment
applied to `stats.filter.client.filtered`. -/
structure HandlerResult where
  buf : List BatchEntry
  pushed : Option (List BatchEntry)
  fatal : Option String
  filteredInc : Nat
deriving DecidableEq, Repr

/-- The `feed.on` change handler of replicate.js: apply the client
filter; on rejection increment the filtered counter; on admission strip
`_rev`, run the transform routine (an error is returned to
`initCallback` and nothing is buffered), append `{seq, doc}` to the
buffer and, once the buffer holds `changes_per_batch` entries, hand
`changes.splice(0, changes_per_batch)` to the write queue.
The inner `none` branch is unreachable: `applyClientFilter` returns
false for every change without a `doc`. -/
def onChange (f : Filter) (t : Transformer) (buf : List BatchEntry) (c : Change) :
    HandlerResult :=
  if Filter.applyClientFilter f (some c) then
    match c.doc with
    | some d =>
      match t.transform (some (stripRev d)) with
      | .error e => { buf := buf, pushed := none, fatal := some e, filteredInc := 0 }
      | .ok td =>
        let buf2 := buf ++ [⟨c.seq, td⟩]
        if changes_per_batch ≤ buf2.length then
          { buf := buf2.drop changes_per_batch,
            pushed := some (buf2.take changes_per_batch),
            fatal := none, filteredInc := 0 }
        else
          { buf := buf2, pushed := none, fatal := none, filteredInc := 0 }
    | none => { buf := buf, pushed := none, fatal := none, filteredInc := 0 }
  else
    { buf := buf, pushed := none, fatal := none, filteredInc := 1 }

/-- The buffer part of the idle `flush` routine: with a non-empty buffer
and an idle write queue, `changes.splice(0, changes_per_batch)` is handed
to the queue; otherwise the buffer is left alone. -/
def flushBuffer (buf : List BatchEntry) (qIdle : Bool) :
    List BatchEntry × Option (List BatchEntry) :=
  if buf.length = 0 then (buf, none)
  else if qIdle then (buf.drop changes_per_batch, some (buf.take changes_per_batch))
  else (buf, none)

/-- An event consumed by the feed controller: a change notification, or
a firing of the idle-flush timer (with the writer's idleness at that
moment). -/
inductive FeedEvent where
  | change (c : Change)
  | flushTick (qIdle : Bool)
deriving DecidableEq, Repr

/-- A run of the feed controller over a list of events, starting from a
given buffer: returns the final buffer and the list of batches handed to
the bulk-write queue, in order. -/
def runFeed (f : Filter) (t : Transformer) :
    List FeedEvent → List BatchEntry → List BatchEntry × List (List BatchEntry)
  | [], buf => (buf, [])
  | FeedEvent.change c :: rest, buf =>
    let r := onChange f t buf c
    let rec' := runFeed f t rest r.buf
    (rec'.1, match r.pushed with
             | some b => b :: rec'.2
             | none => rec'.2)
  | FeedEvent.flushTick qIdle :: rest, buf =>
    let fl := flushBuffer buf qIdle
    let rec' := runFeed f t rest fl.1
    (rec'.1, match fl.2 with
             | some b => b :: rec'.2
             | none => rec'.2)

/-- The document list sent to `targetDb.bulk` for a batch:
`batch.changes.forEach(... docs.push(change.doc))`. -/
def bulkDocs (batch : List BatchEntry) : List (Option Doc) :=
  batch.map BatchEntry.doc

/-- The `r.init` callback of app.js: an error terminates the process
with exit code 1, otherwise the status server is started. -/
inductive ServiceAction where
  | exit (code : Nat)
  | serve
deriving DecidableEq, Repr

/-- Models the body of the callback passed to `r.init` in app.js. -/
def initCallbackAction (err : Option String) : ServiceAction :=
  match err with
  | some _ => .exit 1
  | none => .serve

end CouchTransform

namespace CouchTransform

/-- C3: with the restart flag set the feed starts from sequence 0 even
when a checkpoint record exists; without the restart flag an existing
checkpoint record supplies the start sequence (100 stays 100), and with
no record the feed starts from 0. -/
theorem c3_restart_flag_start_sequence :
    (∀ ri : RecoveryInfo, update_start_sequence true (some ri) = 0) ∧
    (∀ ri : RecoveryInfo, update_start_sequence false (some ri) = ri.last_update_seq) ∧
    update_start_sequence true (some ⟨100, "ts"⟩) = 0 ∧
    update_start_sequence false (some ⟨100, "ts"⟩) = 100 ∧
    (∀ b : Bool, update_start_sequence b none = 0) := by
  refine ⟨fun ri => rfl, fun ri => rfl, rfl, rfl, fun b => by cases b <;> rfl⟩

/-- C9: when no transform routine is configured, `transform` always
reports no error and returns the input document unchanged. -/
theorem c9_transform_identity :
    ∀ (nm : Option String) (doc : Option Doc),
      (Transformer.mk nm none).transform doc = Except.ok doc := by
  intro nm doc
  cases doc <;> rfl

/-- C5: `applyClientFilter` rejects a null change and a change without a
document body; admits every change with a body when no client filter is
configured; returns the configured filter function's boolean result when
it returns normally; and returns false when the filter function throws. -/
theorem c5_apply_client_filter :
    (∀ f : Filter, f.applyClientFilter none = false) ∧
    (∀ (f : Filter) (c : Change), c.doc = none → f.applyClientFilter (some c) = false) ∧
    (∀ (sf : Option String) (c : Change) (d : Doc), c.doc = some d →
      (Filter.mk sf none).applyClientFilter (some c) = true) ∧
    (∀ (sf : Option String) (g : Change → Except String Bool) (c : Change) (d : Doc) (b : Bool),
      c.doc = some d → g c = .ok b →
      (Filter.mk sf (some g)).applyClientFilter (some c) = b) ∧
    (∀ (sf : Option String) (g : Change → Except String Bool) (c : Change) (d : Doc) (e : String),
      c.doc = some d → g c = .error e →
      (Filter.mk sf (some g)).applyClientFilter (some c) = false) := by
  refine ⟨fun f => rfl, ?_, ?_, ?_, ?_⟩
  · intro f c hc
    simp [Filter.applyClientFilter, hc]
  · intro sf c d hc
    simp [Filter.applyClientFilter, hc]
  · intro sf g c d b hc hg
    simp [Filter.applyClientFilter, hc, hg]
  · intro sf g c d e hc hg
    simp [Filter.applyClientFilter, hc, hg]

/-- An example document with a body, used to instantiate theorems with
hypotheses at concrete inputs. -/
def exDoc : Doc := ⟨"doc1", some "1-abc", false, [("k", "v")]⟩

/-- An example change carrying `exDoc`. -/
def exChange : Change := ⟨3, false, some exDoc⟩

/-- A client filter function that always throws. -/
def exThrowingFilter : Change → Except String Bool :=
  fun _ => .error "boom"

/-- Witness for C5: with no client filter a change with a body is
admitted, and with a throwing client filter the same change is rejected. -/
theorem c5_apply_client_filter_witness :
    (Filter.mk none none).applyClientFilter (some exChange) = true ∧
    (Filter.mk none (some exThrowingFilter)).applyClientFilter (some exChange) = false :=
  ⟨c5_apply_client_filter.2.2.1 none exChange exDoc rfl,
   c5_apply_client_filter.2.2.2.2 none exThrowingFilter exChange exDoc "boom" rfl rfl⟩

/-- The batch [A(seq 1), B(seq 2)] of the partial-failure scenario. -/
def c1Batch : List BatchEntry :=
  [⟨1, some ⟨"A", none, false, []⟩⟩, ⟨2, some ⟨"B", none, false, []⟩⟩]

/-- The bulk-write outcome of the scenario: A succeeds, B fails. -/
def c1Outcome : Except String (List BulkResult) :=
  .ok [⟨some "A", some "2-a"⟩, ⟨none, none⟩]

/-- C1 counterexample: for the batch [A(seq 1), B(seq 2)] with A
succeeding and B failing, the worker does increment copied and failed by
one each and reports the batch as failed, but - contrary to the claim -
it never computes or attempts to persist a checkpoint for the batch:
`saveRecoveryInfo` is not called (no persisted entry, in particular none
with sequence 1) and `last_applied_update_seq` keeps its previous value,
because the worker returns its error callback before the checkpoint
lines are reached. -/
theorem c1_partial_failure_counterexample :
    (workerStep initWorker c1Batch c1Outcome).1.copied = 1 ∧
    (workerStep initWorker c1Batch c1Outcome).1.failed = 1 ∧
    ((workerStep initWorker c1Batch c1Outcome).2).isSome = true ∧
    (workerStep initWorker c1Batch c1Outcome).1.persisted = [] ∧
    (workerStep initWorker c1Batch c1Outcome).1.last_applied_update_seq = some 0 := by
  decide

/-- C1 as amended: when a bulk write returns per-document results with at
least one failure, the worker increments copied by the number of
successes and failed by the number of failures and reports the batch as
failed to its caller, but it does not compute or attempt to persist any
checkpoint: the persisted-checkpoint list and `last_applied_update_seq`
are unchanged. -/
theorem c1_partial_failure_amended (st : WorkerState) (batch : List BatchEntry)
    (data : List BulkResult)
    (hfail : 0 < (bulkScan ((batch.map BatchEntry.seq).zip data) none).2.1) :
    (workerStep st batch (.ok data)).1.copied =
      st.copied + (bulkScan ((batch.map BatchEntry.seq).zip data) none).1 ∧
    (workerStep st batch (.ok data)).1.failed =
      st.failed + (bulkScan ((batch.map BatchEntry.seq).zip data) none).2.1 ∧
    ((workerStep st batch (.ok data)).2).isSome = true ∧
    (workerStep st batch (.ok data)).1.persisted = st.persisted ∧
    (workerStep st batch (.ok data)).1.last_applied_update_seq =
      st.last_applied_update_seq := by
  simp only [workerStep, hfail, if_pos]
  simp

/-- Witness for the amended C1 at the concrete partial-failure scenario. -/
theorem c1_partial_failure_amended_witness :
    (workerStep initWorker c1Batch (.ok [⟨some "A", some "2-a"⟩, ⟨none, none⟩])).1.copied =
      initWorker.copied +
        (bulkScan ((c1Batch.map BatchEntry.seq).zip [⟨some "A", some "2-a"⟩, ⟨none, none⟩]) none).1 ∧
    (workerStep initWorker c1Batch (.ok [⟨some "A", some "2-a"⟩, ⟨none, none⟩])).1.failed =
      initWorker.failed +
        (bulkScan ((c1Batch.map BatchEntry.seq).zip [⟨some "A", some "2-a"⟩, ⟨none, none⟩]) none).2.1 ∧
    ((workerStep initWorker c1Batch (.ok [⟨some "A", some "2-a"⟩, ⟨none, none⟩])).2).isSome = true ∧
    (workerStep initWorker c1Batch (.ok [⟨some "A", some "2-a"⟩, ⟨none, none⟩])).1.persisted =
      initWorker.persisted ∧
    (workerStep initWorker c1Batch (.ok [⟨some "A", some "2-a"⟩, ⟨none, none⟩])).1.last_applied_update_seq =
      initWorker.last_applied_update_seq :=
  c1_partial_failure_amended initWorker c1Batch [⟨some "A", some "2-a"⟩, ⟨none, none⟩] (by decide)

/-- C10: the statistics counters never decrease: each worker execution
(per-document result handling and transport-error handling) only grows
copied and failed, any run of the worker over a job list only grows
them, and the change handler's rejection path increments the filtered
counter by exactly 0 or 1, never decrementing it. -/
theorem c10_counters_monotone :
    (∀ (st : WorkerState) (batch : List BatchEntry) (outcome : Except String (List BulkResult)),
      st.copied ≤ (workerStep st batch outcome).1.copied ∧
      st.failed ≤ (workerStep st batch outcome).1.failed) ∧
    (∀ (st : WorkerState) (jobs : List Job),
      st.copied ≤ (runWorker st jobs).copied ∧
      st.failed ≤ (runWorker st jobs).failed) ∧
    (∀ (f : Filter) (t : Transformer) (buf : List BatchEntry) (c : Change) (filtered : Nat),
      filtered ≤ filtered + (onChange f t buf c).filteredInc) := by
  have hstep : ∀ (st : WorkerState) (batch : List BatchEntry)
      (outcome : Except String (List BulkResult)),
      st.copied ≤ (workerStep st batch outcome).1.copied ∧
      st.failed ≤ (workerStep st batch outcome).1.failed := by
    intro st batch outcome
    cases outcome with
    | error e => exact ⟨Nat.le_refl _, Nat.le_add_right _ _⟩
    | ok data =>
      simp only [workerStep]
      split <;> exact ⟨Nat.le_add_right _ _, Nat.le_add_right _ _⟩
  refine ⟨hstep, ?_, fun f t buf c filtered => Nat.le_add_right _ _⟩
  intro st jobs
  induction jobs generalizing st with
  | nil => exact ⟨Nat.le_refl _, Nat.le_refl _⟩
  | cons j rest ih =>
    have h1 := hstep st j.1 j.2
    have h2 := ih (workerStep st j.1 j.2).1
    exact ⟨Nat.le_trans h1.1 h2.1, Nat.le_trans h1.2 h2.2⟩

/-- C6: when the configured transform routine raises an error on an
admitted document, the change handler buffers nothing and enqueues
nothing and returns the error to `initCallback`, and the app-level init
callback terminates the service with a non-zero exit code. -/
theorem c6_transform_error_fatal (f : Filter) (t : Transformer) (buf : List BatchEntry)
    (c : Change) (d : Doc) (r : Doc → Except String Doc) (e : String)
    (hroutine : t.routine = some r)
    (hdoc : c.doc = some d)
    (hpass : Filter.applyClientFilter f (some c) = true)
    (herr : r (stripRev d) = .error e) :
    ((onChange f t buf c).fatal).isSome = true ∧
    (onChange f t buf c).pushed = none ∧
    (onChange f t buf c).buf = buf ∧
    ∃ code, initCallbackAction (onChange f t buf c).fatal = ServiceAction.exit code ∧
      code ≠ 0 := by
  have honch : onChange f t buf c =
      { buf := buf, pushed := none,
        fatal := some ("Custom transformation function defined in " ++ (t.name.getD "null") ++
                " caused a fatal error: " ++ e),
        filteredInc := 0 } := by
    simp [onChange, hpass, hdoc, Transformer.transform, hroutine, herr]
  refine ⟨by simp [honch], by simp [honch], by simp [honch], 1, ?_, one_ne_zero⟩
  simp [honch, initCallbackAction]

/-- A transform routine that always raises. -/
def exFailingRoutine : Doc → Except String Doc :=
  fun _ => .error "bad document"

/-- Witness for C6: a throwing routine on an admitted concrete change
yields a fatal error and process exit 1. -/
theorem c6_transform_error_fatal_witness :
    ((onChange (Filter.mk none none) (Transformer.mk (some "t.js") (some exFailingRoutine))
        [] exChange).fatal).isSome = true ∧
    (onChange (Filter.mk none none) (Transformer.mk (some "t.js") (some exFailingRoutine))
        [] exChange).pushed = none ∧
    (onChange (Filter.mk none none) (Transformer.mk (some "t.js") (some exFailingRoutine))
        [] exChange).buf = [] ∧
    ∃ code, initCallbackAction
        (onChange (Filter.mk none none) (Transformer.mk (some "t.js") (some exFailingRoutine))
          [] exChange).fatal = ServiceAction.exit code ∧ code ≠ 0 :=
  c6_transform_error_fatal (Filter.mk none none)
    (Transformer.mk (some "t.js") (some exFailingRoutine)) [] exChange exDoc
    exFailingRoutine "bad document" rfl rfl rfl rfl

/-- Every batch the change handler hands to the queue is a
`take changes_per_batch` slice, hence within the bound. -/
lemma onChange_pushed_length (f : Filter) (t : Transformer) (buf : List BatchEntry)
    (c : Change) (pb : List BatchEntry) (hpb : (onChange f t buf c).pushed = some pb) :
    pb.length ≤ changes_per_batch := by
  unfold onChange at hpb
  split at hpb
  · rcases hd : c.doc with _ | d
    · simp [hd] at hpb
    · simp only [hd] at hpb
      rcases htr : t.transform (some (stripRev d)) with eMsg | td
      · simp [htr] at hpb
      · simp only [htr] at hpb
        split at hpb
        · have hpb2 : (buf ++ [(⟨c.seq, td⟩ : BatchEntry)]).take changes_per_batch = pb := by
            simpa using hpb
          rw [← hpb2]
          simp
        · simp at hpb
  · simp at hpb

/-- C7: every batch handed to the bulk-write queue - by the change
handler when the buffer reaches the threshold, and by the idle-flush
routine - contains at most `changes_per_batch` (500) entries, for every
event sequence and every starting buffer. -/
theorem c7_batch_size_bound (f : Filter) (t : Transformer) (events : List FeedEvent)
    (buf0 : List BatchEntry) :
    ∀ b ∈ (runFeed f t events buf0).2, b.length ≤ changes_per_batch := by
  induction events generalizing buf0 with
  | nil => intro b hb; simp [runFeed] at hb
  | cons ev rest ih =>
    intro b hb
    cases ev with
    | change c =>
      simp only [runFeed] at hb
      rcases hpush : (onChange f t buf0 c).pushed with _ | pb
      · rw [hpush] at hb
        exact ih _ b hb
      · rw [hpush] at hb
        rcases List.mem_cons.mp hb with hEq | hmem
        · subst hEq
          exact onChange_pushed_length f t buf0 c b hpush
        · exact ih _ b hmem
    | flushTick qIdle =>
      simp only [runFeed] at hb
      unfold flushBuffer at hb
      by_cases h0 : buf0.length = 0
      · simp [h0] at hb
        exact ih _ b hb
      · by_cases hq : qIdle
        · simp [h0, hq] at hb
          rcases hb with hEq | hmem
          · subst hEq
            simp
          · exact ih _ b hmem
        · simp [h0, hq] at hb
          exact ih _ b hb

/-- A batch produced in the C7 witness run. -/
def c7Batch : List BatchEntry :=
  [⟨3, some (stripRev exDoc)⟩]

/-- Witness for C7: in a concrete run with one admitted change and one
idle flush, the emitted batch respects the bound. -/
theorem c7_batch_size_bound_witness :
    c7Batch.length ≤ changes_per_batch :=
  c7_batch_size_bound (Filter.mk none none) (Transformer.mk none none)
    [FeedEvent.change exChange, FeedEvent.flushTick true] [] c7Batch (by decide)


/-- Constant `inactivity_check_interval`: the base idle-flush interval (60 s, in
milliseconds). -/
def inactivity_check_interval : Nat := 60 * 1000

/-- Constant `max_inactivity_check_interval_delay_factor` (6). -/
def max_inactivity_check_interval_delay_factor : Nat := 6

/-- Idle-flush timer state: the current backoff exponent
(`inactivity_check_interval_delay_factor`, starting at 0) and the
interval the timer is currently armed with, in milliseconds. -/
structure FlushTimer where
  delay_factor : Nat
  interval : Nat
deriving DecidableEq, Repr

/-- The timer as first armed:
`inactivity_check_interval * Math.pow(2, 0)`. -/
def initFlushTimer : FlushTimer :=
  { delay_factor := 0, interval := inactivity_check_interval * 2 ^ 0 }

/-- One firing of the `flush` routine, restricted to its timer effect.
With an empty buffer and an idle queue the factor is incremented and the
timer rearmed whenever `delay_factor <= max_...` held before the
increment; with an empty buffer and a busy queue nothing changes; with a
non-empty buffer the factor is reset to 0 and the timer rearmed at the
base interval. -/
def flushStep (st : FlushTimer) (bufEmpty qIdle : Bool) : FlushTimer :=
  if bufEmpty then
    if qIdle then
      if st.delay_factor ≤ max_inactivity_check_interval_delay_factor then
        { delay_factor := st.delay_factor + 1,
          interval := inactivity_check_interval * 2 ^ (st.delay_factor + 1) }
      else st
    else st
  else
    { delay_factor := 0, interval := inactivity_check_interval * 2 ^ 0 }

/-- The timer state after N consecutive firings that found the buffer
empty and the queue idle, starting from the initial timer. -/
def idleFires : Nat → FlushTimer
  | 0 => initFlushTimer
  | n + 1 => flushStep (idleFires n) true true

/-- C4 counterexample: after 7 consecutive empty-and-idle firings the
armed interval is base * 2^7 = base * 128, not base * 2^min(7,6), and it
exceeds base * 64 (the guard is `delay_factor <= 6` before the
increment, so the exponent reaches 7); moreover a firing that finds the
buffer empty but the writer busy does not reset the interval to the base
interval - it leaves the timer state unchanged. -/
theorem c4_backoff_counterexample :
    (idleFires 7).interval = inactivity_check_interval * 128 ∧
    inactivity_check_interval * 2 ^ (min 7 6) < (idleFires 7).interval ∧
    inactivity_check_interval * 64 < (idleFires 7).interval ∧
    flushStep ⟨3, inactivity_check_interval * 2 ^ 3⟩ true false =
      ⟨3, inactivity_check_interval * 2 ^ 3⟩ := by
  decide

/-- C4 as amended: after N consecutive firings that find the buffer
empty and the write queue idle, the delay factor is min(N,7) and the
armed interval is base * 2^min(N,7); the interval never exceeds
base * 2^7 = base * 128 (about 128 minutes); a firing that finds the
buffer non-empty resets the timer to the base interval, while a firing
that finds the buffer empty and the writer busy leaves the timer
unchanged. -/
theorem c4_backoff_amended :
    (∀ n, (idleFires n).delay_factor = min n 7 ∧
      (idleFires n).interval = inactivity_check_interval * 2 ^ (min n 7)) ∧
    (∀ n, (idleFires n).interval ≤ inactivity_check_interval * 2 ^ 7) ∧
    (∀ (st : FlushTimer) (qIdle : Bool), flushStep st false qIdle = initFlushTimer) ∧
    (∀ st : FlushTimer, flushStep st true false = st) := by
  have hmain : ∀ n, (idleFires n).delay_factor = min n 7 ∧
      (idleFires n).interval = inactivity_check_interval * 2 ^ (min n 7) := by
    intro n
    induction n with
    | zero => exact ⟨rfl, rfl⟩
    | succ m ih =>
      by_cases hm : m ≤ 6
      · have hmin : min m 7 = m := Nat.min_eq_left (le_trans hm (by norm_num))
        have hmin2 : min (m + 1) 7 = m + 1 := Nat.min_eq_left (Nat.succ_le_succ hm)
        have hcond : (idleFires m).delay_factor ≤ max_inactivity_check_interval_delay_factor := by
          rw [ih.1, hmin]
          simpa [max_inactivity_check_interval_delay_factor] using hm
        have hstep : idleFires (m + 1) =
            ⟨(idleFires m).delay_factor + 1,
             inactivity_check_interval * 2 ^ ((idleFires m).delay_factor + 1)⟩ := by
          show flushStep (idleFires m) true true = _
          unfold flushStep
          simp [hcond]
        refine ⟨?_, ?_⟩ <;> simp [hstep, ih.1, hmin, hmin2]
      · have hm7 : 7 ≤ m := Nat.lt_of_not_le hm
        have hmin : min m 7 = 7 := Nat.min_eq_right hm7
        have hmin2 : min (m + 1) 7 = 7 := Nat.min_eq_right (le_trans hm7 (Nat.le_succ m))
        have hcond : ¬ (idleFires m).delay_factor ≤ max_inactivity_check_interval_delay_factor := by
          rw [ih.1, hmin]
          decide
        have hstep : idleFires (m + 1) = idleFires m := by
          show flushStep (idleFires m) true true = _
          unfold flushStep
          simp [hcond]
        refine ⟨?_, ?_⟩ <;> simp [hstep, hmin2, hmin, ih.1, ih.2]
  refine ⟨hmain, ?_, ?_, ?_⟩
  · intro n
    rw [(hmain n).2]
    exact Nat.mul_le_mul_left _ (Nat.pow_le_pow_right (by norm_num) (Nat.min_le_right n 7))
  · intro st qIdle
    rfl
  · intro st
    rfl

/-- The no-filter configuration: no server-side and no client-side
filter. -/
def noFilter : Filter :=
  { serverFilterName := none, clientFilterDefinition := none }

/-- The no-transform configuration. -/
def noTransformer : Transformer :=
  { name := none, routine := none }

/-- A deleted source document as delivered by the change feed with
`include_docs`: the body carries `_deleted = true`. -/
def deletedDoc : Doc :=
  ⟨"gone", some "2-x", true, []⟩

/-- The change notification for `deletedDoc`: deletion flag set. -/
def deletedChange : Change :=
  ⟨1, true, some deletedDoc⟩

/-- C8 counterexample: with no server-side and no client-side filter
configured, a change whose deletion flag is set and whose body carries
`_deleted` is admitted, buffered, flushed, and the batch handed to the
bulk writer sends the still-deleted document (only `_rev` was stripped)
to the target database - so deletions are propagated in this
configuration, contradicting the claim. -/
theorem c8_deletion_propagated_counterexample :
    (runFeed noFilter noTransformer
        [FeedEvent.change deletedChange, FeedEvent.flushTick true] []).2 =
      [[⟨1, some (stripRev deletedDoc)⟩]] ∧
    bulkDocs [⟨1, some (stripRev deletedDoc)⟩] = [some (stripRev deletedDoc)] ∧
    (stripRev deletedDoc)._deleted = true ∧
    deletedChange.deleted = true := by
  decide

/-- C8 as amended: with no server-side and no client-side filter
configured, every change that carries a document body - deleted or not -
is admitted by the change handler: it is neither counted as filtered nor
fatal, its document is appended (with `_rev` stripped and `_deleted`
untouched) to the material handed to the bulk writer, so a deleted
source document is propagated to the target unless a configured filter
rejects it. -/
theorem c8_deletion_propagated_amended (buf : List BatchEntry) (c : Change) (d : Doc)
    (hdoc : c.doc = some d) :
    (onChange noFilter noTransformer buf c).filteredInc = 0 ∧
    (onChange noFilter noTransformer buf c).fatal = none ∧
    ((onChange noFilter noTransformer buf c).pushed.getD []) ++
        (onChange noFilter noTransformer buf c).buf =
      buf ++ [⟨c.seq, some (stripRev d)⟩] ∧
    (stripRev d)._deleted = d._deleted := by
  have hpass : Filter.applyClientFilter noFilter (some c) = true := by
    simp [Filter.applyClientFilter, hdoc, noFilter]
  have htr : noTransformer.transform (some (stripRev d)) = .ok (some (stripRev d)) := rfl
  unfold onChange
  rw [hpass]
  simp only [if_pos]
  rw [hdoc]
  simp only [htr]
  by_cases hlen : changes_per_batch ≤ buf.length + 1
  · simp [hlen, List.take_append_drop, stripRev]
  · simp [hlen, stripRev]

/-- Witness for the amended C8 at the concrete deleted change. -/
theorem c8_deletion_propagated_amended_witness :
    (onChange noFilter noTransformer [] deletedChange).filteredInc = 0 ∧
    (onChange noFilter noTransformer [] deletedChange).fatal = none ∧
    ((onChange noFilter noTransformer [] deletedChange).pushed.getD []) ++
        (onChange noFilter noTransformer [] deletedChange).buf =
      [] ++ [⟨deletedChange.seq, some (stripRev deletedDoc)⟩] ∧
    (stripRev deletedDoc)._deleted = deletedDoc._deleted :=
  c8_deletion_propagated_amended [] deletedChange deletedDoc rfl


/-- The failure count of the worker scan is zero exactly when every
per-document result in the batch is a success. -/
lemma bulkScan_fail_zero : ∀ (l : List (Nat × BulkResult)) (a : Option Nat),
    (bulkScan l a).2.1 = 0 ↔ ∀ p ∈ l, isSuccess p.2 = true := by
  intro l
  induction l with
  | nil => intro a; simp [bulkScan]
  | cons p rest ih =>
    intro a
    by_cases hs : isSuccess p.2 = true
    · simp [bulkScan, hs, ih]
    · simp [bulkScan, hs]

/-- When every result succeeds, `lastSuccessSeqInBatch` is one of the
batch's sequence tokens. -/
lemma bulkScan_last_mem : ∀ (l : List (Nat × BulkResult)) (a : Option Nat),
    (∀ p ∈ l, isSuccess p.2 = true) → l ≠ [] →
    ∃ s ∈ l.map Prod.fst, (bulkScan l a).2.2 = some s := by
  intro l
  induction l with
  | nil => intro a _ hne; exact absurd rfl hne
  | cons p rest ih =>
    intro a hall _
    have hs : isSuccess p.2 = true := hall p (by simp)
    by_cases hr : rest = []
    · subst hr
      exact ⟨p.1, by simp, by simp [bulkScan, hs]⟩
    · obtain ⟨s, hmem, heq⟩ := ih (some p.1) (fun q hq => hall q (by simp [hq])) hr
      refine ⟨s, List.mem_cons_of_mem _ hmem, ?_⟩
      simp only [bulkScan, hs, if_pos]
      exact heq

/-- A transport error leaves the persisted-checkpoint list unchanged. -/
lemma workerStep_persisted_error (st : WorkerState) (b : List BatchEntry) (e : String) :
    (workerStep st b (.error e)).1.persisted = st.persisted := rfl

/-- A batch with at least one per-document failure leaves the
persisted-checkpoint list unchanged (the worker returns before the
`saveRecoveryInfo` call). -/
lemma workerStep_persisted_someFailed (st : WorkerState) (b : List BatchEntry)
    (data : List BulkResult)
    (h : 0 < (bulkScan ((b.map BatchEntry.seq).zip data) none).2.1) :
    (workerStep st b (.ok data)).1.persisted = st.persisted := by
  simp [workerStep, h]

/-- An entirely successful batch appends `lastSuccessSeqInBatch` to the
persisted-checkpoint list. -/
lemma workerStep_persisted_success (st : WorkerState) (b : List BatchEntry)
    (data : List BulkResult)
    (h : (bulkScan ((b.map BatchEntry.seq).zip data) none).2.1 = 0) :
    (workerStep st b (.ok data)).1.persisted =
      st.persisted ++ [(bulkScan ((b.map BatchEntry.seq).zip data) none).2.2] := by
  simp [workerStep, h]

/-- Invariant of the worker run: if the checkpoints persisted so far are
sorted, all non-null, and bounded by every sequence token still to be
processed, and the remaining stream of sequence tokens is sorted with
non-empty batches and parallel result lists, then after draining the
queue the persisted checkpoints are still sorted and non-null. -/
lemma runWorker_ckpts_invariant : ∀ (jobs : List Job) (st : WorkerState),
    List.Sorted (· ≤ ·) (ckpts st) →
    (∀ p ∈ st.persisted, p.isSome = true) →
    (∀ x ∈ ckpts st, ∀ q ∈ (jobs.map jobSeqs).flatten, x ≤ q) →
    List.Sorted (· ≤ ·) ((jobs.map jobSeqs).flatten) →
    (∀ j ∈ jobs, j.1 ≠ []) →
    (∀ j ∈ jobs, ∀ data, j.2 = .ok data → data.length = j.1.length) →
    List.Sorted (· ≤ ·) (ckpts (runWorker st jobs)) ∧
      ∀ p ∈ (runWorker st jobs).persisted, p.isSome = true := by
  intro jobs
  induction jobs with
  | nil =>
    intro st h1 h2 _ _ _ _
    exact ⟨h1, h2⟩
  | cons j rest ih =>
    intro st h1 h2 h3 h4 h5 h6
    have hjoin : (((j :: rest).map jobSeqs).flatten : List Nat) =
        jobSeqs j ++ (rest.map jobSeqs).flatten := by
      simp
    rw [hjoin] at h3 h4
    have hsplit := List.pairwise_append.mp h4
    have hstep : ∀ st2 : WorkerState, st2.persisted = st.persisted →
        List.Sorted (· ≤ ·) (ckpts (runWorker st2 rest)) ∧
          ∀ p ∈ (runWorker st2 rest).persisted, p.isSome = true := by
      intro st2 hpers
      have hck : ckpts st2 = ckpts st := by
        unfold ckpts
        rw [hpers]
      apply ih
      · rw [hck]; exact h1
      · rw [hpers]; exact h2
      · rw [hck]
        intro x hx q hq
        exact h3 x hx q (List.mem_append_right _ hq)
      · exact hsplit.2.1
      · intro j2 hj2; exact h5 j2 (List.mem_cons_of_mem _ hj2)
      · intro j2 hj2; exact h6 j2 (List.mem_cons_of_mem _ hj2)
    simp only [runWorker]
    rcases houtcome : j.2 with e | data
    · exact hstep _ (workerStep_persisted_error st j.1 e)
    · by_cases hfail : 0 < (bulkScan ((j.1.map BatchEntry.seq).zip data) none).2.1
      · exact hstep _ (workerStep_persisted_someFailed st j.1 data hfail)
      · have hzero : (bulkScan ((j.1.map BatchEntry.seq).zip data) none).2.1 = 0 :=
          Nat.eq_zero_of_not_pos hfail
        have hall : ∀ p ∈ (j.1.map BatchEntry.seq).zip data, isSuccess p.2 = true :=
          (bulkScan_fail_zero _ _).mp hzero
        have hlen : data.length = j.1.length := h6 j (by simp) data houtcome
        have hzipne : (j.1.map BatchEntry.seq).zip data ≠ [] := by
          intro hcontra
          apply h5 j (by simp)
          have hl : ((j.1.map BatchEntry.seq).zip data).length = 0 := by
            rw [hcontra]; rfl
          rw [List.length_zip, List.length_map, hlen, Nat.min_self] at hl
          exact List.length_eq_zero.mp hl
        obtain ⟨s, hsmem, hseq⟩ := bulkScan_last_mem _ none hall hzipne
        have hmapfst : ((j.1.map BatchEntry.seq).zip data).map Prod.fst =
            j.1.map BatchEntry.seq := by
          apply List.map_fst_zip
          rw [List.length_map, hlen]
        have hsInJ : s ∈ jobSeqs j := by
          unfold jobSeqs
          rw [hmapfst] at hsmem
          exact hsmem
        have hpers : (workerStep st j.1 (Except.ok data)).1.persisted =
            st.persisted ++ [some s] := by
          rw [workerStep_persisted_success st j.1 data hzero, hseq]
        have hck : ckpts (workerStep st j.1 (Except.ok data)).1 = ckpts st ++ [s] := by
          unfold ckpts
          rw [hpers]
          simp
        apply ih
        · rw [hck]
          refine List.pairwise_append.mpr ⟨h1, by simp, ?_⟩
          intro x hx y hy
          rcases List.mem_singleton.mp hy with rfl
          exact h3 x hx y (List.mem_append_left _ hsInJ)
        · rw [hpers]
          intro p hp
          rcases List.mem_append.mp hp with h | h
          · exact h2 p h
          · rcases List.mem_singleton.mp h with rfl
            rfl
        · rw [hck]
          intro x hx q hq
          rcases List.mem_append.mp hx with hx2 | hx2
          · exact h3 x hx2 q (List.mem_append_right _ hq)
          · rcases List.mem_singleton.mp hx2 with rfl
            exact hsplit.2.2 x hsInJ q hq
        · exact hsplit.2.1
        · intro j2 hj2; exact h5 j2 (List.mem_cons_of_mem _ hj2)
        · intro j2 hj2; exact h6 j2 (List.mem_cons_of_mem _ hj2)

/-- C2: for every run of the single bulk-write worker over batches whose
sequence tokens arrive in non-decreasing order (each batch non-empty,
the target returning one result per document), the checkpoint sequence
values persisted via `saveRecoveryInfo` form a non-decreasing list, and
every persisted value is an actual sequence token (non-null): the
checkpoint is never regressed. -/
theorem c2_checkpoint_monotone (jobs : List Job)
    (hsorted : List.Sorted (· ≤ ·) ((jobs.map jobSeqs).flatten))
    (hne : ∀ j ∈ jobs, j.1 ≠ [])
    (hlen : ∀ j ∈ jobs, ∀ data, j.2 = .ok data → data.length = j.1.length) :
    List.Sorted (· ≤ ·) (ckpts (runWorker initWorker jobs)) ∧
      ∀ p ∈ (runWorker initWorker jobs).persisted, p.isSome = true :=
  runWorker_ckpts_invariant jobs initWorker (by simp [ckpts, initWorker])
    (by simp [initWorker]) (by simp [ckpts, initWorker]) hsorted hne hlen

/-- A concrete two-batch run (sequences 1 then 2, both fully
successful) used to instantiate C2. -/
def c2Jobs : List Job :=
  [([⟨1, some ⟨"a", none, false, []⟩⟩], .ok [⟨some "a", some "1-x"⟩]),
   ([⟨2, some ⟨"b", none, false, []⟩⟩], .ok [⟨some "b", some "1-y"⟩])]

/-- Witness for C2 at the concrete two-batch run. -/
theorem c2_checkpoint_monotone_witness :
    List.Sorted (· ≤ ·) (ckpts (runWorker initWorker c2Jobs)) ∧
      ∀ p ∈ (runWorker initWorker c2Jobs).persisted, p.isSome = true :=
  c2_checkpoint_monotone c2Jobs (by decide) (by decide)
    (by
      intro j hj data hdata
      fin_cases hj <;> (simp only [] at hdata; injection hdata with hdata2; subst hdata2; rfl))

end CouchTransform
